import Mathlib

/-! Shallow embedding of the game-state store of the Chucky repository
(src/store.ts).  JS numbers are modelled as `Nat`/`Int`/`ℚ`; every
`Date.now()` read becomes an explicit `now : Int` argument of the action
that performs it; `Math.random()` draws and the trigonometric scatter
geometry they feed are abstracted as oracle inputs that no verified claim
observes.  Each action is a pure function `GameState → ... → GameState`
mirroring the corresponding `set` callback of the zustand store. -/

namespace Chucky

/-- From src/unnamed/part_000 (`types.ts`): `GamePhase`. -/
inductive GamePhase
  | START
  | PLAYING
  | GAMEOVER
deriving DecidableEq

/-- From `types.ts`: `CameraMode`. -/
inductive CameraMode
  | FOLLOW
  | TOP_DOWN
  | BEHIND
  | CINEMATIC
deriving DecidableEq

/-- Tree size class, fixed at spawn (small, medium or large). -/
inductive TreeSize
  | small
  | medium
  | large
deriving DecidableEq

/-- Food kind (apple or berry, store.ts line 731). -/
inductive FoodType
  | apple
  | berry
deriving DecidableEq

/-- Mob kind (wolf or bear, store.ts line 1024). -/
inductive MobType
  | wolf
  | bear
deriving DecidableEq

/-- Notification `type` field (info, achievement or unlock). -/
inductive NotificationType
  | info
  | achievement
  | unlock
deriving DecidableEq

/-- JS `[number, number, number]` triples (positions, Euler rotations). -/
abbrev Vec3 := ℚ × ℚ × ℚ

/-- `TreeData` (types.ts). -/
structure TreeData where
  id : String
  position : Vec3
  health : ℚ
  maxHealth : ℚ
  size : TreeSize
  isFelled : Bool
deriving DecidableEq

/-- `LogData` (types.ts): a player-placed dam log. -/
structure LogData where
  id : String
  position : Vec3
  rotation : Vec3
  isLocked : Bool
  createdAt : Int
deriving DecidableEq

/-- `LooseLogData` (types.ts): a scattered collectible log. -/
structure LooseLogData where
  id : String
  position : Vec3
  rotation : Vec3
  createdAt : Int
deriving DecidableEq

/-- `BoulderData` (types.ts). -/
structure BoulderData where
  id : String
  position : Vec3
  scale : ℚ
deriving DecidableEq

/-- `Blueprint` (types.ts / store.ts `generateBlueprints`).  The random
per-log offset geometry (`logs` field) is visual only, generated from
`Math.random()`, and read by no store action, so it is omitted here. -/
structure Blueprint where
  id : String
  name : String
  cost : Nat
  unlocked : Bool
  unlockScore : Nat
deriving DecidableEq

/-- `PlacedStructure` (types.ts). -/
structure PlacedStructure where
  id : String
  blueprintId : String
  position : Vec3
  rotation : Vec3
  health : ℚ
  maxHealth : ℚ
deriving DecidableEq

/-- `ComboState` (types.ts / store.ts lines 281-289). -/
structure ComboState where
  active : Bool
  startTime : Int
  logsCollected : Nat
  multiplier : Nat
  lastLogTime : Int
  logsSinceLastLevel : Nat
  levelStartTime : Int
deriving DecidableEq

/-- `Notification` (types.ts): some notifications in store.ts carry an
`id` and/or `blueprintId`, others leave them undefined. -/
structure Notification where
  id : Option String
  title : String
  message : String
  type : NotificationType
  blueprintId : Option String
deriving DecidableEq

/-- `MobData` (types.ts). -/
structure MobData where
  id : String
  position : Vec3
  velocity : Vec3
  type : MobType
  createdAt : Int
deriving DecidableEq

/-- `FoodData` (types.ts). -/
structure FoodData where
  id : String
  position : Vec3
  rotation : Vec3
  createdAt : Int
  type : FoodType
deriving DecidableEq

/-- The full zustand store state (store.ts `interface GameState`,
data fields only; the action closures become top-level functions). -/
structure GameState where
  phase : GamePhase
  cameraMode : CameraMode
  woodCount : Nat
  score : Nat
  totalLogsCollected : Nat
  notification : Option Notification
  damIntegrity : ℚ
  trees : List TreeData
  logs : List LogData
  looseLogs : List LooseLogData
  boulders : List BoulderData
  woodchuckPosition : Vec3
  activeTreeId : Option String
  blueprints : List Blueprint
  placedStructures : List PlacedStructure
  isPlacementMode : Bool
  isBuildMenuOpen : Bool
  selectedBlueprintId : Option String
  placementRotation : Vec3
  destroyTargetId : Option String
  isDestroying : Bool
  isPaused : Bool
  lastPauseStartTime : Int
  combo : ComboState
  lastChompTime : Int
  treesChomped : List Int
  isTreePowerupActive : Bool
  treePowerupEndTime : Int
  hasSeenTreePowerupPopup : Bool
  isLogPowerupActive : Bool
  logPowerupEndTime : Int
  hasSeenLogPowerupPopup : Bool
  timeOfDay : ℚ
  dayDuration : ℚ
  mobs : List MobData
  food : List FoodData
  health : ℚ
  maxHealth : ℚ
deriving DecidableEq

/-- The fresh combo record built when a collection starts a combo
(store.ts lines 379-387, duplicated at 541-549). -/
def comboStart (now : Int) : ComboState :=
  { active := true
  , startTime := now
  , logsCollected := 0
  , multiplier := 1
  , lastLogTime := now
  , logsSinceLastLevel := 0
  , levelStartTime := now }

/-- Level-up check of the collection actions (store.ts lines 399-427,
duplicated at 558-579): returns the updated combo and points total. -/
def comboLevelUp (c1 : ComboState) (p1 : Nat) (now : Int) : ComboState × Nat :=
  if c1.multiplier = 1 then
    if 2 ≤ c1.logsCollected ∧ now - c1.startTime < 40000 then
      ({ c1 with multiplier := 2, logsSinceLastLevel := 0, levelStartTime := now }, p1 + 1)
    else (c1, p1)
  else if c1.multiplier = 2 then
    if 2 ≤ c1.logsSinceLastLevel ∧ now - c1.levelStartTime < 30000 then
      ({ c1 with multiplier := 3, logsSinceLastLevel := 0, levelStartTime := now }, p1 + 2)
    else (c1, p1)
  else if c1.multiplier = 3 then
    if 2 ≤ c1.logsSinceLastLevel ∧ now - c1.levelStartTime < 25000 then
      ({ c1 with multiplier := 4, logsSinceLastLevel := 0, levelStartTime := now }, p1 + 3)
    else (c1, p1)
  else (c1, p1)

/-- Counter bump of a collection event (store.ts lines 390-392,
duplicated at 552-554). -/
def comboBump (c : ComboState) (now : Int) : ComboState :=
  { c with
    logsCollected := c.logsCollected + 1
  , logsSinceLastLevel := c.logsSinceLastLevel + 1
  , lastLogTime := now }

/-- The too-slow reset (store.ts lines 430-436, duplicated at 581-587):
at multiplier ≥ 2, exceeding the current window resets only
`logsSinceLastLevel` and `levelStartTime`. -/
def comboTimeoutReset (c2 : ComboState) (now : Int) : ComboState :=
  if 2 ≤ c2.multiplier ∧
      (if c2.multiplier = 2 then (30000 : Int) else 25000) < now - c2.levelStartTime then
    { c2 with logsSinceLastLevel := 1, levelStartTime := now }
  else c2

/-- The combo-update block shared verbatim by `collectLooseLog`
(store.ts lines 372-436) and `collectLog` (lines 534-587): start a combo
if inactive, bump the counters, award `multiplier - 1` points when the
multiplier is already elevated, run the level-up check, then the
too-slow reset.  Returns the new combo and the points gained so far. -/
def comboAdvance (c : ComboState) (now : Int) : ComboState × Nat :=
  let c0 := if c.active = true then c else comboStart now
  let c1 := comboBump c0 now
  let p1 : Nat := if 1 < c1.multiplier then c1.multiplier - 1 else 0
  let cp := comboLevelUp c1 p1 now
  (comboTimeoutReset cp.1 now, cp.2)

/-- Notification raised when the log-magnet powerup first activates
(store.ts lines 449-453, duplicated at 600-604). -/
def magneticLogsNotification : Notification :=
  { id := none
  , title := "MAGNETIC LOGS ACTIVATED!"
  , message := "You reached a 3x Multiplier! For the next 30 seconds, your collection radius is massive! Gather everything!"
  , type := NotificationType.info
  , blueprintId := none }

/-- Milestone notification for every 50th log (store.ts lines 462-467). -/
def milestoneNotification (n : Nat) : Notification :=
  { id := some ("log-milestone-" ++ toString n)
  , title := "LOG MASTER!"
  , message := "Collected " ++ toString n ++ " logs! +10 Points"
  , type := NotificationType.achievement
  , blueprintId := none }

/-- Blueprint-unlock notification (store.ts lines 479-486 and 497-503). -/
def unlockNotification (i : Nat) (bp : Blueprint) : Notification :=
  { id := some ("unlock-bp-" ++ toString i)
  , title := "NEW BLUEPRINT!"
  , message := "Unlocked: " ++ bp.name
  , type := NotificationType.unlock
  , blueprintId := some bp.id }

/-- The mutable tuple threaded through the unlock logic of a collection
event: `newBlueprints`, `newScore`, `notification`, `shouldPause`. -/
structure SweepAcc where
  blueprints : List Blueprint
  score : Nat
  notification : Option Notification
  shouldPause : Bool
deriving DecidableEq

/-- The local threshold table of the collection actions (store.ts
line 491, duplicated at 637). -/
def thresholds : List Nat := [0, 150, 300, 500, 750, 1050, 1400, 1800, 2250, 2750]

/-- One iteration of the blueprint-unlock loop (store.ts lines 493-506,
duplicated at 638-651): if blueprint `i` is still locked and the running
score has reached `thresholds[i]`, unlock it, add the flat +100 bonus and
raise the unlock notification. -/
def sweepStep (acc : SweepAcc) (i : Nat) : SweepAcc :=
  match acc.blueprints[i]?, thresholds[i]? with
  | some bp, some th =>
      if bp.unlocked = false ∧ th ≤ acc.score then
        { blueprints := acc.blueprints.set i { bp with unlocked := true }
        , score := acc.score + 100
        , notification := some (unlockNotification i { bp with unlocked := true })
        , shouldPause := true }
      else acc
  | _, _ => acc

/-- The single forward pass `for (let i = 1; i < thresholds.length; i++)`
over score thresholds 1..9 (store.ts lines 493-506, duplicated). -/
def unlockSweep (acc : SweepAcc) : SweepAcc :=
  (List.range' 1 9).foldl sweepStep acc

/-- The blueprint[0] unlock step (`3 logs total`, store.ts lines 476-487,
duplicated at 624-635), run before the threshold sweep. -/
def bp0Step (bps : List Blueprint) (score newTotalLogs : Nat)
    (notif : Option Notification) (pause : Bool) : SweepAcc :=
  match bps[0]? with
  | some bp0 =>
      if bp0.unlocked = false ∧ 3 ≤ newTotalLogs then
        { blueprints := bps.set 0 { bp0 with unlocked := true }
        , score := score + 100
        , notification := some (unlockNotification 0 { bp0 with unlocked := true })
        , shouldPause := true }
      else { blueprints := bps, score := score, notification := notif, shouldPause := pause }
  | none => { blueprints := bps, score := score, notification := notif, shouldPause := pause }

/-- The score/notification/pause bookkeeping of a collection event up to
and including the blueprint[0] unlock (store.ts lines 438-487,
duplicated at 589-635): combo points, log-powerup popup, milestone, and
the `newScore`/`newBlueprints`/`notification`/`shouldPause` tuple that
the threshold sweep then iterates on.  Both collection entry points
compute exactly this from the same inputs. -/
def collectAcc0 (s : GameState) (now : Int) : SweepAcc :=
      let ca := comboAdvance s.combo now
      let newCombo := ca.1
      let popup := 3 ≤ newCombo.multiplier ∧ s.isLogPowerupActive = false ∧
        s.hasSeenLogPowerupPopup = false
      let notif1 := if popup then some magneticLogsNotification else s.notification
      let pause1 := if popup then true else false
      let newTotalLogs := s.totalLogsCollected + 1
      let points2 := if newTotalLogs % 50 = 0 then ca.2 + 10 else ca.2
      let notif2 := if newTotalLogs % 50 = 0 then some (milestoneNotification newTotalLogs) else notif1
      let pause2 := if newTotalLogs % 50 = 0 then true else pause1
      bp0Step s.blueprints (s.score + points2) newTotalLogs notif2 pause2

/-- The post-guard body of `collectLooseLog` (store.ts lines 370-521):
combo update, log-powerup activation, milestone, score update,
blueprint[0] unlock, threshold sweep, and the atomic merge that grants
`1 * multiplier` wood and removes the collected log.  After the guards
the source only uses the collected entity through its `id`. -/
def collectLooseLogHit (s : GameState) (id : String) (now : Int) : GameState :=
      let ca := comboAdvance s.combo now
      let newCombo := ca.1
      let activates := 3 ≤ newCombo.multiplier ∧ s.isLogPowerupActive = false
      let popup := 3 ≤ newCombo.multiplier ∧ s.isLogPowerupActive = false ∧
        s.hasSeenLogPowerupPopup = false
      let isLogPowerupActive := if activates then true else s.isLogPowerupActive
      let logPowerupEndTime := if activates then now + 30000 else s.logPowerupEndTime
      let hasSeenLogPowerupPopup := if popup then true else s.hasSeenLogPowerupPopup
      let newTotalLogs := s.totalLogsCollected + 1
      let acc := unlockSweep (collectAcc0 s now)
      { s with
        woodCount := s.woodCount + 1 * newCombo.multiplier
      , score := acc.score
      , totalLogsCollected := newTotalLogs
      , looseLogs := s.looseLogs.filter (fun l => !(l.id == id))
      , combo := newCombo
      , blueprints := acc.blueprints
      , notification := acc.notification
      , isPaused := acc.shouldPause
      , lastPauseStartTime := if acc.shouldPause then now else s.lastPauseStartTime
      , isLogPowerupActive := isLogPowerupActive
      , logPowerupEndTime := logPowerupEndTime
      , hasSeenLogPowerupPopup := hasSeenLogPowerupPopup }

/-- `collectLooseLog` (store.ts lines 362-522): the two guards (missing
id, 500ms invulnerability) return the state unchanged, otherwise the
collection body runs. -/
def collectLooseLog (s : GameState) (id : String) (now : Int) : GameState :=
  match s.looseLogs.find? (fun l => l.id == id) with
  | none => s
  | some log =>
    if now - log.createdAt < 500 then s
    else collectLooseLogHit s id now

/-- The post-guard body of `collectLog` (store.ts lines 532-666):
identical to `collectLooseLogHit` except that it removes from the
dam-log list `logs`. -/
def collectLogHit (s : GameState) (id : String) (now : Int) : GameState :=
      let ca := comboAdvance s.combo now
      let newCombo := ca.1
      let activates := 3 ≤ newCombo.multiplier ∧ s.isLogPowerupActive = false
      let popup := 3 ≤ newCombo.multiplier ∧ s.isLogPowerupActive = false ∧
        s.hasSeenLogPowerupPopup = false
      let isLogPowerupActive := if activates then true else s.isLogPowerupActive
      let logPowerupEndTime := if activates then now + 30000 else s.logPowerupEndTime
      let hasSeenLogPowerupPopup := if popup then true else s.hasSeenLogPowerupPopup
      let newTotalLogs := s.totalLogsCollected + 1
      let acc := unlockSweep (collectAcc0 s now)
      { s with
        woodCount := s.woodCount + 1 * newCombo.multiplier
      , score := acc.score
      , totalLogsCollected := newTotalLogs
      , logs := s.logs.filter (fun l => !(l.id == id))
      , combo := newCombo
      , blueprints := acc.blueprints
      , notification := acc.notification
      , isPaused := acc.shouldPause
      , lastPauseStartTime := if acc.shouldPause then now else s.lastPauseStartTime
      , isLogPowerupActive := isLogPowerupActive
      , logPowerupEndTime := logPowerupEndTime
      , hasSeenLogPowerupPopup := hasSeenLogPowerupPopup }

/-- `collectLog` (store.ts lines 524-667): same guards as
`collectLooseLog`, then the dam-log collection body. -/
def collectLog (s : GameState) (id : String) (now : Int) : GameState :=
  match s.logs.find? (fun l => l.id == id) with
  | none => s
  | some log =>
    if now - log.createdAt < 500 then s
    else collectLogHit s id now

/-- `endCombo` (store.ts lines 344-346). -/
def endCombo (s : GameState) : GameState :=
  { s with combo := { s.combo with active := false, multiplier := 1 } }

/-- `endGame` (store.ts line 333). -/
def endGame (s : GameState) : GameState :=
  { s with phase := GamePhase.GAMEOVER, isPaused := true }

/-- `dismissNotification` (store.ts lines 348-360): clears the
notification, unpauses, and shifts the three combo timestamps by the
elapsed pause duration when the combo is active. -/
def dismissNotification (s : GameState) (now : Int) : GameState :=
  let pauseDuration := now - s.lastPauseStartTime
  { s with
    notification := none
  , isPaused := false
  , combo := { s.combo with
      startTime := s.combo.startTime + (if s.combo.active = true then pauseDuration else 0)
    , levelStartTime := s.combo.levelStartTime + (if s.combo.active = true then pauseDuration else 0)
    , lastLogTime := s.combo.lastLogTime + (if s.combo.active = true then pauseDuration else 0) } }

/-- `openBuildMenu` (store.ts lines 831-838): pauses, records the pause
start, and closes the combo session (multiplier back to 1). -/
def openBuildMenu (s : GameState) (now : Int) : GameState :=
  { s with
    isPlacementMode := false
  , isBuildMenuOpen := true
  , isPaused := true
  , lastPauseStartTime := now
  , combo := { s.combo with active := false, multiplier := 1 } }

/-- `closeBuildMenu` (store.ts lines 840-854): unpauses and pause-
compensates the combo timestamps only. -/
def closeBuildMenu (s : GameState) (now : Int) : GameState :=
  let pauseDuration := now - s.lastPauseStartTime
  { s with
    isPlacementMode := false
  , isBuildMenuOpen := false
  , selectedBlueprintId := none
  , isPaused := false
  , combo := { s.combo with
      startTime := s.combo.startTime + (if s.combo.active = true then pauseDuration else 0)
    , levelStartTime := s.combo.levelStartTime + (if s.combo.active = true then pauseDuration else 0)
    , lastLogTime := s.combo.lastLogTime + (if s.combo.active = true then pauseDuration else 0) } }

/-- `selectBlueprint` (store.ts lines 856-871): enters placement mode,
unpauses and pause-compensates the combo timestamps only. -/
def selectBlueprint (s : GameState) (id : String) (now : Int) : GameState :=
  let pauseDuration := now - s.lastPauseStartTime
  { s with
    selectedBlueprintId := some id
  , isPlacementMode := true
  , isBuildMenuOpen := false
  , isPaused := false
  , placementRotation := (0, 0, 0)
  , combo := { s.combo with
      startTime := s.combo.startTime + (if s.combo.active = true then pauseDuration else 0)
    , levelStartTime := s.combo.levelStartTime + (if s.combo.active = true then pauseDuration else 0)
    , lastLogTime := s.combo.lastLogTime + (if s.combo.active = true then pauseDuration else 0) } }

/-- `placeStructure` (store.ts lines 887-911): requires a selected,
existing blueprint and `woodCount ≥ cost`; on success deducts the cost
and appends a structure with `health = maxHealth = cost * 10`. -/
def placeStructure (s : GameState) (position : Vec3) (now : Int) : GameState :=
  match s.selectedBlueprintId with
  | none => s
  | some bid =>
    match s.blueprints.find? (fun b => b.id == bid) with
    | none => s
    | some blueprint =>
      if s.woodCount < blueprint.cost then s
      else
        let newStructure : PlacedStructure :=
          { id := "struct-" ++ toString now
          , blueprintId := blueprint.id
          , position := position
          , rotation := s.placementRotation
          , health := (blueprint.cost : ℚ) * 10
          , maxHealth := (blueprint.cost : ℚ) * 10 }
        { s with
          woodCount := s.woodCount - blueprint.cost
        , placedStructures := s.placedStructures ++ [newStructure]
        , isPlacementMode := false
        , selectedBlueprintId := none }

/-- `heal` (store.ts lines 808-810). -/
def heal (s : GameState) (amount : ℚ) : GameState :=
  { s with health := min s.maxHealth (s.health + amount) }

/-- `collectFood` (store.ts lines 812-827): heals 20 (apple) or 10
(berry), allowing overheal capped at `maxHealth * 2`. -/
def collectFood (s : GameState) (id : String) : GameState :=
  match s.food.find? (fun f => f.id == id) with
  | none => s
  | some food =>
    let healAmount : ℚ := if food.type = FoodType.apple then 20 else 10
    let maxOverheal := s.maxHealth * 2
    { s with
      food := s.food.filter (fun f => !(f.id == id))
    , health := min maxOverheal (s.health + healAmount) }

/-- Oracle for the `Math.random()` draws of `damageTree` (store.ts lines
700-733): the trigonometric scatter of the spawned loose logs and the
30% food drop.  No verified claim reads these positions. -/
structure DamageOracle where
  scatterPos : Nat → Vec3
  scatterRot : Nat → Vec3
  foodDrop : Option (Vec3 × Vec3 × FoodType)

/-- Notification raised when the mega-chomp powerup first activates
(store.ts lines 758-762). -/
def megaChompNotification : Notification :=
  { id := none
  , title := "MEGA CHOMP ACTIVATED!"
  , message := "You chomped 3 trees in 30 seconds! For the next 22.5 seconds, you can chomp multiple trees at once! Get to work!"
  , type := NotificationType.info
  , blueprintId := none }

/-- `damageTree` (store.ts lines 688-789): no-op on a missing or felled
tree; otherwise reduces health, and on reaching 0 fells the tree,
spawns 1/2/3 loose logs by size (creation times staggered by 100ms),
possibly drops food, and runs the tree-powerup logic. -/
def damageTree (s : GameState) (id : String) (amount : ℚ) (now : Int)
    (o : DamageOracle) : GameState :=
  match s.trees.find? (fun t => t.id == id) with
  | none => s
  | some tree =>
    if tree.isFelled = true then s
    else
      let newHealth := max 0 (tree.health - amount)
      if newHealth = 0 then
        let logCount : Nat :=
          if tree.size = TreeSize.large then 3
          else if tree.size = TreeSize.medium then 2 else 1
        let newLooseLogs := (List.range logCount).map (fun i =>
          ({ id := "loose-" ++ id ++ "-" ++ toString now ++ "-" ++ toString i
           , position := o.scatterPos i
           , rotation := o.scatterRot i
           , createdAt := now + 100 * i } : LooseLogData))
        let newFood : List FoodData :=
          match o.foodDrop with
          | some (p, r, ty) =>
              [{ id := "food-" ++ id ++ "-" ++ toString now
               , position := p, rotation := r, createdAt := now, type := ty }]
          | none => []
        let newTreesChomped := (s.treesChomped.filter (fun t => now - t ≤ 30000)) ++ [now]
        let activates := 3 ≤ newTreesChomped.length ∧ s.isTreePowerupActive = false
        let popup := 3 ≤ newTreesChomped.length ∧ s.isTreePowerupActive = false ∧
          s.hasSeenTreePowerupPopup = false
        { s with
          activeTreeId := none
        , trees := s.trees.map (fun t =>
            if t.id == id then { t with health := newHealth, isFelled := true } else t)
        , looseLogs := s.looseLogs ++ newLooseLogs
        , food := s.food ++ newFood
        , treesChomped := newTreesChomped
        , isTreePowerupActive := if activates then true else s.isTreePowerupActive
        , treePowerupEndTime := if activates then now + 22500 else s.treePowerupEndTime
        , hasSeenTreePowerupPopup := if popup then true else s.hasSeenTreePowerupPopup
        , notification := if popup then some megaChompNotification else s.notification
        , isPaused := if popup then true else s.isPaused
        , lastPauseStartTime := if popup then now else s.lastPauseStartTime
        , lastChompTime := now }
      else
        { s with
          activeTreeId := some id
        , trees := s.trees.map (fun t =>
            if t.id == id then { t with health := newHealth, isFelled := false } else t) }

/-- Oracle for the scatter geometry of `tickDestruction` (store.ts lines
939-953). -/
structure DestroyOracle where
  scatterPos : Nat → Vec3
  scatterRot : Nat → Vec3

/-- `tickDestruction` (store.ts lines 919-966): per-tick structure decay
while destroying; at 0 health, removes the structure and spawns
`floor(cost * 0.8)` loose logs (creation times staggered by 50ms). -/
def tickDestruction (s : GameState) (delta : ℚ) (now : Int) (o : DestroyOracle) : GameState :=
  if s.isDestroying = false then s
  else
    match s.destroyTargetId with
    | none => s
    | some tid =>
      match s.placedStructures.find? (fun st => st.id == tid) with
      | none => { s with isDestroying := false, destroyTargetId := none }
      | some struct =>
        let damageRate := struct.maxHealth / (2 + struct.maxHealth / 1000)
        let newHealth := max 0 (struct.health - damageRate * delta)
        if newHealth ≤ 0 then
          let cost : Nat :=
            match s.blueprints.find? (fun b => b.id == struct.blueprintId) with
            | some bp => bp.cost
            | none => 10
          let costQ : ℚ := Nat.cast cost
          let logsToSpawn := (Int.floor (costQ * ((8 : ℚ) / 10))).toNat
          let newLooseLogs := (List.range logsToSpawn).map (fun i =>
            ({ id := "loose-struct-" ++ struct.id ++ "-" ++ toString now ++ "-" ++ toString i
             , position := o.scatterPos i
             , rotation := o.scatterRot i
             , createdAt := now + 50 * i } : LooseLogData))
          { s with
            placedStructures := s.placedStructures.filter (fun st => !(st.id == tid))
          , looseLogs := s.looseLogs ++ newLooseLogs
          , isDestroying := false
          , destroyTargetId := none }
        else
          { s with placedStructures := s.placedStructures.map (fun st =>
              if st.id == tid then { st with health := newHealth } else st) }

/-- Oracle for the `Math.random()` draws of `updateTime` (store.ts lines
1014-1033): the 1% night-spawn roll, the 2% day-despawn roll, the
spawn offset `cos/sin(angle) * dist` and the mob kind. -/
structure TimeOracle where
  spawnRoll : Bool
  despawnRoll : Bool
  spawnOffset : ℚ × ℚ
  mobType : MobType

/-- `updateTime` (store.ts lines 1002-1043): no-op while paused;
advances `timeOfDay` by `delta / dayDuration` subtracting 1 once at the
wrap, runs mob spawn/despawn, and decays overheal at 0.2 HP/sec. -/
def updateTime (s : GameState) (delta : ℚ) (playerPos : Vec3) (now : Int)
    (o : TimeOracle) : GameState :=
  if s.isPaused = true then s
  else
    let dayProgress := delta / s.dayDuration
    let newTime0 := s.timeOfDay + dayProgress
    let newTime := if 1 ≤ newTime0 then newTime0 - 1 else newTime0
    let isNight := (3 / 4 : ℚ) < newTime ∨ newTime < 1 / 4
    let newMobs :=
      if isNight then
        if s.mobs.length < 8 ∧ o.spawnRoll = true then
          s.mobs ++ [{ id := "mob-" ++ toString now
                     , position := (playerPos.1 + o.spawnOffset.1, 0, playerPos.2.2 + o.spawnOffset.2)
                     , velocity := (0, 0, 0)
                     , type := o.mobType
                     , createdAt := now }]
        else s.mobs
      else
        if 0 < s.mobs.length ∧ o.despawnRoll = true then s.mobs.dropLast else s.mobs
    let newHealth :=
      if s.maxHealth < s.health then max s.maxHealth (s.health - (1 / 5) * delta)
      else s.health
    { s with timeOfDay := newTime, mobs := newMobs, health := newHealth }

/-- One collection event for sequence statements: which entry point,
the entity id, and the wall-clock time of the call. -/
structure CollectEvent where
  loose : Bool
  entityId : String
  time : Int

/-- Apply one collection event. -/
def applyCollect (s : GameState) (e : CollectEvent) : GameState :=
  if e.loose = true then collectLooseLog s e.entityId e.time
  else collectLog s e.entityId e.time

/-- Apply a sequence of collection events in order. -/
def collectSeq (s : GameState) (es : List CollectEvent) : GameState :=
  es.foldl applyCollect s

/-- One `updateTime` call for sequence statements. -/
structure TimeCall where
  delta : ℚ
  playerPos : Vec3
  time : Int
  oracle : TimeOracle

/-- Apply a sequence of `updateTime` calls in order. -/
def updateTimeSeq (s : GameState) (cs : List TimeCall) : GameState :=
  cs.foldl (fun st c => updateTime st c.delta c.playerPos c.time c.oracle) s

/-- A fully locked ten-entry blueprint catalog with the costs, names and
thresholds of `generateBlueprints` (store.ts lines 147-207), for use in
concrete test states. -/
def exBlueprints : List Blueprint :=
  [ { id := "bp-0", name := "Small Pile", cost := 7, unlocked := false, unlockScore := 0 }
  , { id := "bp-1", name := "Log Line", cost := 15, unlocked := false, unlockScore := 150 }
  , { id := "bp-2", name := "Corner Wall", cost := 30, unlocked := false, unlockScore := 300 }
  , { id := "bp-3", name := "Box Frame", cost := 60, unlocked := false, unlockScore := 500 }
  , { id := "bp-4", name := "River Gate", cost := 120, unlocked := false, unlockScore := 750 }
  , { id := "bp-5", name := "Dam Segment", cost := 240, unlocked := false, unlockScore := 1050 }
  , { id := "bp-6", name := "Fortress Wall", cost := 480, unlocked := false, unlockScore := 1400 }
  , { id := "bp-7", name := "Tower Base", cost := 960, unlocked := false, unlockScore := 1800 }
  , { id := "bp-8", name := "Mega Dam", cost := 1920, unlocked := false, unlockScore := 2250 }
  , { id := "bp-9", name := "Woodchuck Palace", cost := 3840, unlocked := false, unlockScore := 2750 } ]

/-- An inactive combo at defaults (store.ts lines 281-289). -/
def exCombo : ComboState :=
  { active := false, startTime := 0, logsCollected := 0, multiplier := 1
  , lastLogTime := 0, logsSinceLastLevel := 0, levelStartTime := 0 }

/-- A concrete mid-session base state used by the witnesses below. -/
def exBaseState : GameState :=
  { phase := GamePhase.PLAYING
  , cameraMode := CameraMode.BEHIND
  , woodCount := 0
  , score := 0
  , totalLogsCollected := 0
  , notification := none
  , damIntegrity := 0
  , trees := []
  , logs := []
  , looseLogs := []
  , boulders := []
  , woodchuckPosition := (0, 5, 0)
  , activeTreeId := none
  , blueprints := exBlueprints
  , placedStructures := []
  , isPlacementMode := false
  , isBuildMenuOpen := false
  , selectedBlueprintId := none
  , placementRotation := (0, 0, 0)
  , destroyTargetId := none
  , isDestroying := false
  , isPaused := false
  , lastPauseStartTime := 0
  , combo := exCombo
  , lastChompTime := 0
  , treesChomped := []
  , isTreePowerupActive := false
  , treePowerupEndTime := 0
  , hasSeenTreePowerupPopup := false
  , isLogPowerupActive := false
  , logPowerupEndTime := 0
  , hasSeenLogPowerupPopup := false
  , timeOfDay := 0
  , dayDuration := 300
  , mobs := []
  , food := []
  , health := 100
  , maxHealth := 100 }

/-- A loose log old enough to be collectible at `now = 1000`. -/
def exLoose (i : String) : LooseLogData :=
  { id := i, position := (0, 0, 0), rotation := (0, 0, 0), createdAt := 0 }

/-- A GAMEOVER state that still holds a collectible loose log, as
produced by `endGame` during play (store.ts line 333 clears nothing). -/
def cexGameOver : GameState :=
  { exBaseState with
    phase := GamePhase.GAMEOVER
  , isPaused := true
  , looseLogs := [exLoose "l0"] }

/-- The initial START-phase state restricted to empty entity lists. -/
def cexStart : GameState :=
  { exBaseState with phase := GamePhase.START }

/-- Two collectible loose logs for the two-collection combo test. -/
def scenTwoLogs : GameState :=
  { exBaseState with looseLogs := [exLoose "a", exLoose "b"] }

/-- A dam log still inside its 500ms invulnerability window at
`now = 1000`. -/
def exYoungLog : LogData :=
  { id := "y0", position := (0, 0, 0), rotation := (0, 0, 0), isLocked := false
  , createdAt := 800 }

/-- State holding one young dam log and one young loose log. -/
def cexYoung : GameState :=
  { exBaseState with
    logs := [exYoungLog]
  , looseLogs := [{ id := "y1", position := (0, 0, 0), rotation := (0, 0, 0), createdAt := 900 }] }

/-- A paused state with an active combo, as left by a blocking
notification raised at time 400. -/
def exPausedCombo : GameState :=
  { exBaseState with
    isPaused := true
  , lastPauseStartTime := 400
  , notification := some magneticLogsNotification
  , combo := { active := true, startTime := 100, logsCollected := 3, multiplier := 2
             , lastLogTime := 350, logsSinceLastLevel := 1, levelStartTime := 200 } }

/-- State in placement mode with blueprint `bp-0` (cost 7) selected and
only 5 wood, scenario C of the spec. -/
def cexPoorBuilder : GameState :=
  { exBaseState with
    woodCount := 5
  , isPlacementMode := true
  , selectedBlueprintId := some "bp-0" }

/-- A trivial damage oracle for witnesses. -/
def oracleD : DamageOracle :=
  { scatterPos := fun _ => (0, 0, 0), scatterRot := fun _ => (0, 0, 0), foodDrop := none }

/-- A trivial destruction oracle for witnesses. -/
def oracleX : DestroyOracle :=
  { scatterPos := fun _ => (0, 0, 0), scatterRot := fun _ => (0, 0, 0) }

/-- A trivial time oracle: no spawn and no despawn roll succeeds. -/
def oracleT : TimeOracle :=
  { spawnRoll := false, despawnRoll := false, spawnOffset := (30, 30), mobType := MobType.wolf }

/-- One food item for the overheal test. -/
def cexFed : GameState :=
  { exBaseState with
    health := 95
  , food := [{ id := "f0", position := (0, 0, 0), rotation := (0, 0, 0), createdAt := 0
             , type := FoodType.apple }] }

/-- Threshold at index `i`, defaulting to 0; used to state that the
sweep visits thresholds in non-decreasing order. -/
def thD (i : Nat) : Nat := thresholds[i]?.getD 0

/-- Components are now fixed; helper lemmas follow. -/

theorem comboBump_active (c : ComboState) (now : Int) :
    (comboBump c now).active = c.active := rfl

theorem comboBump_multiplier (c : ComboState) (now : Int) :
    (comboBump c now).multiplier = c.multiplier := rfl

theorem comboTimeoutReset_active (c : ComboState) (now : Int) :
    (comboTimeoutReset c now).active = c.active := by
  unfold comboTimeoutReset; split_ifs <;> rfl

theorem comboTimeoutReset_multiplier (c : ComboState) (now : Int) :
    (comboTimeoutReset c now).multiplier = c.multiplier := by
  unfold comboTimeoutReset; split_ifs <;> rfl

theorem comboLevelUp_active (c1 : ComboState) (p1 : Nat) (now : Int) :
    (comboLevelUp c1 p1 now).1.active = c1.active := by
  unfold comboLevelUp; split_ifs <;> rfl

theorem comboLevelUp_multiplier (c1 : ComboState) (p1 : Nat) (now : Int) :
    (comboLevelUp c1 p1 now).1.multiplier = c1.multiplier ∨
    (comboLevelUp c1 p1 now).1.multiplier = c1.multiplier + 1 := by
  unfold comboLevelUp
  split_ifs with h1 h2 h3 h4 h5 h6 <;> simp_all

/-- A successful collection always leaves the combo active. -/
theorem comboAdvance_active (c : ComboState) (now : Int) :
    (comboAdvance c now).1.active = true := by
  unfold comboAdvance
  simp only [comboTimeoutReset_active, comboLevelUp_active, comboBump_active]
  by_cases hac : c.active = true
  · rw [if_pos hac]; exact hac
  · rw [if_neg hac]; rfl

/-- A successful collection keeps the combo active and moves the
multiplier up by at most one step, given the store invariant that an
inactive combo sits at multiplier 1. -/
theorem comboAdvance_step (c : ComboState) (now : Int)
    (hinv : c.active = false → c.multiplier = 1) :
    (comboAdvance c now).1.active = true ∧
    ((comboAdvance c now).1.multiplier = c.multiplier ∨
     (comboAdvance c now).1.multiplier = c.multiplier + 1) := by
  refine ⟨comboAdvance_active c now, ?_⟩
  unfold comboAdvance
  simp only [comboTimeoutReset_multiplier]
  by_cases hac : c.active = true
  · rw [if_pos hac]
    have h := comboLevelUp_multiplier (comboBump c now)
      (if 1 < (comboBump c now).multiplier then (comboBump c now).multiplier - 1 else 0) now
    rwa [comboBump_multiplier] at h
  · rw [if_neg hac]
    have hf : c.active = false := by revert hac; cases c.active <;> simp
    have hm1 : c.multiplier = 1 := hinv hf
    have h := comboLevelUp_multiplier (comboBump (comboStart now) now)
      (if 1 < (comboBump (comboStart now) now).multiplier
       then (comboBump (comboStart now) now).multiplier - 1 else 0) now
    rw [comboBump_multiplier] at h
    rw [hm1]
    exact h

/-- The combo field of `collectLooseLog` is either untouched (guard
rejected) or the output of the shared combo-update block. -/
theorem collectLooseLog_combo (s : GameState) (id : String) (now : Int) :
    (collectLooseLog s id now).combo = s.combo ∨
    (collectLooseLog s id now).combo = (comboAdvance s.combo now).1 := by
  rcases h : s.looseLogs.find? (fun l => l.id == id) with _ | log
  · exact Or.inl (by simp [collectLooseLog, h])
  · by_cases h5 : now - log.createdAt < 500
    · exact Or.inl (by simp [collectLooseLog, h, h5])
    · exact Or.inr (by simp [collectLooseLog, collectLooseLogHit, h, h5])

/-- Same as `collectLooseLog_combo` for `collectLog`. -/
theorem collectLog_combo (s : GameState) (id : String) (now : Int) :
    (collectLog s id now).combo = s.combo ∨
    (collectLog s id now).combo = (comboAdvance s.combo now).1 := by
  rcases h : s.logs.find? (fun l => l.id == id) with _ | log
  · exact Or.inl (by simp [collectLog, h])
  · by_cases h5 : now - log.createdAt < 500
    · exact Or.inl (by simp [collectLog, h, h5])
    · exact Or.inr (by simp [collectLog, collectLogHit, h, h5])

/-- Per-event monotonicity step on the full game state, including the
preservation of the inactive-at-multiplier-1 store invariant. -/
theorem applyCollect_step (s : GameState) (e : CollectEvent)
    (hinv : s.combo.active = false → s.combo.multiplier = 1) :
    ((applyCollect s e).combo.multiplier = s.combo.multiplier ∨
     (applyCollect s e).combo.multiplier = s.combo.multiplier + 1) ∧
    ((applyCollect s e).combo.active = false → (applyCollect s e).combo.multiplier = 1) := by
  have hcases : (applyCollect s e).combo = s.combo ∨
      (applyCollect s e).combo = (comboAdvance s.combo e.time).1 := by
    unfold applyCollect
    by_cases hl : e.loose = true
    · simpa [hl] using collectLooseLog_combo s e.entityId e.time
    · simpa [hl] using collectLog_combo s e.entityId e.time
  rcases hcases with h | h
  · rw [h]; exact ⟨Or.inl rfl, hinv⟩
  · rw [h]
    obtain ⟨ha, hm⟩ := comboAdvance_step s.combo e.time hinv
    refine ⟨hm, fun hfalse => ?_⟩
    rw [ha] at hfalse
    cases hfalse

/-- A sweep step at an index whose threshold the running score has not
reached leaves the accumulator untouched. -/
theorem sweepStep_stall (acc : SweepAcc) (j : Nat)
    (h : ∀ t, thresholds[j]? = some t → acc.score < t) :
    sweepStep acc j = acc := by
  rcases hbp : acc.blueprints[j]? with _ | bp
  · simp [sweepStep, hbp]
  · rcases hth : thresholds[j]? with _ | th
    · simp [sweepStep, hbp, hth]
    · have hnot : ¬ (bp.unlocked = false ∧ th ≤ acc.score) := by
        rintro ⟨-, hle⟩
        exact absurd hle (not_le.mpr (h th hth))
      simp [sweepStep, hbp, hth, hnot]

/-- Folding the sweep over indices all of whose thresholds exceed the
current score changes nothing. -/
theorem sweep_foldl_stall (is : List Nat) :
    ∀ acc : SweepAcc, (∀ i ∈ is, ∀ t, thresholds[i]? = some t → acc.score < t) →
      is.foldl sweepStep acc = acc := by
  induction is with
  | nil => intro acc _; rfl
  | cons j rest ih =>
    intro acc h
    have h1 : sweepStep acc j = acc :=
      sweepStep_stall acc j (fun t ht => h j (List.mem_cons_self j rest) t ht)
    calc (j :: rest).foldl sweepStep acc = rest.foldl sweepStep (sweepStep acc j) := rfl
      _ = rest.foldl sweepStep acc := by rw [h1]
      _ = acc := ih acc (fun i hi t ht => h i (List.mem_cons_of_mem j hi) t ht)

/-- A sweep step never materializes a blueprint at an absent index. -/
theorem sweepStep_get_none (acc : SweepAcc) (j i : Nat)
    (h : acc.blueprints[i]? = none) : (sweepStep acc j).blueprints[i]? = none := by
  rcases hbp : acc.blueprints[j]? with _ | bp
  · simp [sweepStep, hbp, h]
  · rcases hth : thresholds[j]? with _ | th
    · simp [sweepStep, hbp, hth, h]
    · by_cases hc : bp.unlocked = false ∧ th ≤ acc.score
      · simp only [sweepStep, hbp, hth]
        rw [if_pos hc]
        simp only []
        rw [List.getElem?_set]
        by_cases hij : j = i
        · subst hij
          rw [if_pos rfl]
          rw [if_neg]
          · intro hlen
            rw [List.getElem?_eq_getElem hlen] at h
            cases h
        · rw [if_neg hij]; exact h
      · simp only [sweepStep, hbp, hth]
        rw [if_neg hc]
        exact h

/-- `sweep_foldl` version of `sweepStep_get_none`. -/
theorem sweep_foldl_get_none (is : List Nat) :
    ∀ (acc : SweepAcc) (i : Nat), acc.blueprints[i]? = none →
      (is.foldl sweepStep acc).blueprints[i]? = none := by
  induction is with
  | nil => intro acc i h; exact h
  | cons j rest ih => intro acc i h; exact ih (sweepStep acc j) i (sweepStep_get_none acc j i h)

/-- A sweep step never re-locks an unlocked blueprint. -/
theorem sweepStep_unlocked (acc : SweepAcc) (j i : Nat)
    (h : ∀ bp, acc.blueprints[i]? = some bp → bp.unlocked = true) :
    ∀ bp, (sweepStep acc j).blueprints[i]? = some bp → bp.unlocked = true := by
  rcases hbp : acc.blueprints[j]? with _ | bpj
  · simpa [sweepStep, hbp] using h
  · rcases hth : thresholds[j]? with _ | th
    · simpa [sweepStep, hbp, hth] using h
    · by_cases hc : bpj.unlocked = false ∧ th ≤ acc.score
      · intro bp hget
        simp only [sweepStep, hbp, hth] at hget
        rw [if_pos hc] at hget
        simp only [] at hget
        rw [List.getElem?_set] at hget
        by_cases hij : j = i
        · rw [if_pos hij] at hget
          split_ifs at hget
          cases hget
          rfl
        · rw [if_neg hij] at hget
          exact h bp hget
      · intro bp hget
        simp only [sweepStep, hbp, hth] at hget
        rw [if_neg hc] at hget
        exact h bp hget

/-- `sweep_foldl` version of `sweepStep_unlocked`. -/
theorem sweep_foldl_unlocked (is : List Nat) :
    ∀ (acc : SweepAcc) (i : Nat),
      (∀ bp, acc.blueprints[i]? = some bp → bp.unlocked = true) →
      ∀ bp, (is.foldl sweepStep acc).blueprints[i]? = some bp → bp.unlocked = true := by
  induction is with
  | nil => intro acc i h; exact h
  | cons j rest ih => intro acc i h; exact ih (sweepStep acc j) i (sweepStep_unlocked acc j i h)

/-- Main fixed-point property of the single ascending pass: an index the
pass leaves locked has a final score strictly below its threshold (so no
later bonus could have made it eligible). -/
theorem sweep_locked_below :
    ∀ is : List Nat, is.Pairwise (fun a b => thD a ≤ thD b) →
    ∀ (acc : SweepAcc) (i : Nat), i ∈ is → ∀ (t : Nat) (bp : Blueprint),
      thresholds[i]? = some t →
      (is.foldl sweepStep acc).blueprints[i]? = some bp → bp.unlocked = false →
      (is.foldl sweepStep acc).score < t := by
  intro is
  induction is with
  | nil => intro _ acc i hi; cases hi
  | cons j rest ih =>
    intro hpw acc i hi t bp ht hbp hlock
    obtain ⟨hj, hrest⟩ := List.pairwise_cons.mp hpw
    rw [List.foldl_cons] at hbp ⊢
    rcases List.mem_cons.mp hi with hij | hir
    case inr => exact ih hrest (sweepStep acc j) i hir t bp ht hbp hlock
    case inl =>
      subst hij
      rcases hbpj : acc.blueprints[i]? with _ | bpj
      · have hnone := sweep_foldl_get_none rest (sweepStep acc i) i
          (sweepStep_get_none acc i i hbpj)
        rw [hnone] at hbp
        cases hbp
      · by_cases hu : bpj.unlocked = true
        · have hstep : ∀ b, (sweepStep acc i).blueprints[i]? = some b → b.unlocked = true := by
            apply sweepStep_unlocked
            intro b hb
            rw [hbpj] at hb
            cases hb
            exact hu
          have hfinal := sweep_foldl_unlocked rest (sweepStep acc i) i hstep bp hbp
          rw [hlock] at hfinal
          cases hfinal
        · have hu' : bpj.unlocked = false := by revert hu; cases bpj.unlocked <;> simp
          by_cases hle : t ≤ acc.score
          · have hset : (sweepStep acc i).blueprints[i]? = some { bpj with unlocked := true } := by
              simp only [sweepStep, hbpj, ht]
              rw [if_pos ⟨hu', hle⟩]
              simp only []
              rw [List.getElem?_set, if_pos rfl]
              have hlen : i < acc.blueprints.length := by
                by_contra hlen
                rw [List.getElem?_eq_none (Nat.le_of_not_lt hlen)] at hbpj
                cases hbpj
              rw [if_pos hlen]
            have hstep : ∀ b, (sweepStep acc i).blueprints[i]? = some b → b.unlocked = true := by
              intro b hb
              rw [hset] at hb
              cases hb
              rfl
            have hfinal := sweep_foldl_unlocked rest (sweepStep acc i) i hstep bp hbp
            rw [hlock] at hfinal
            cases hfinal
          · have hskip : sweepStep acc i = acc := by
              simp only [sweepStep, hbpj, ht]
              rw [if_neg]
              rintro ⟨-, hle2⟩
              exact hle hle2
            have hstall : rest.foldl sweepStep acc = acc := by
              apply sweep_foldl_stall
              intro k hk tk htk
              have hord : thD i ≤ thD k := hj k hk
              have hdi : thD i = t := by simp [thD, ht]
              have hdk : thD k = tk := by simp [thD, htk]
              rw [hdi, hdk] at hord
              exact lt_of_lt_of_le (Nat.lt_of_not_le hle) hord
            rw [hskip, hstall]
            exact Nat.lt_of_not_le hle

/-- The thresholds visited by the pass (indices 1..9) are ascending. -/
theorem thresholds_sorted : (List.range' 1 9).Pairwise (fun a b => thD a ≤ thD b) := by
  decide

/-- Instantiation of `sweep_locked_below` to the actual pass. -/
theorem unlockSweep_locked_below (acc : SweepAcc) (i t : Nat) (bp : Blueprint)
    (h1 : 1 ≤ i) (h9 : i ≤ 9) (ht : thresholds[i]? = some t)
    (hbp : (unlockSweep acc).blueprints[i]? = some bp) (hlock : bp.unlocked = false) :
    (unlockSweep acc).score < t := by
  have hmem : i ∈ List.range' 1 9 := by
    rw [List.mem_range']
    exact ⟨i - 1, by omega, by omega⟩
  exact sweep_locked_below (List.range' 1 9) thresholds_sorted acc i hmem t bp ht hbp hlock

/-- The blueprints and score a successful loose-log collection returns
are the output of the single threshold pass. -/
theorem collectLooseLogHit_sweep (s : GameState) (id : String) (now : Int) :
    (collectLooseLogHit s id now).blueprints = (unlockSweep (collectAcc0 s now)).blueprints ∧
    (collectLooseLogHit s id now).score = (unlockSweep (collectAcc0 s now)).score := by
  constructor <;> simp only [collectLooseLogHit]

/-- Same as `collectLooseLogHit_sweep` for dam logs. -/
theorem collectLogHit_sweep (s : GameState) (id : String) (now : Int) :
    (collectLogHit s id now).blueprints = (unlockSweep (collectAcc0 s now)).blueprints ∧
    (collectLogHit s id now).score = (unlockSweep (collectAcc0 s now)).score := by
  constructor <;> simp only [collectLogHit]

/-- A collection event is either a guarded no-op or ends in the sweep. -/
theorem applyCollect_sweep_cases (s : GameState) (e : CollectEvent) :
    applyCollect s e = s ∨
    ((applyCollect s e).blueprints = (unlockSweep (collectAcc0 s e.time)).blueprints ∧
     (applyCollect s e).score = (unlockSweep (collectAcc0 s e.time)).score) := by
  unfold applyCollect
  by_cases hl : e.loose = true
  · rw [if_pos hl]
    rcases h : s.looseLogs.find? (fun l => l.id == e.entityId) with _ | log
    · exact Or.inl (by simp [collectLooseLog, h])
    · by_cases h5 : e.time - log.createdAt < 500
      · exact Or.inl (by simp [collectLooseLog, h, h5])
      · have heq : collectLooseLog s e.entityId e.time = collectLooseLogHit s e.entityId e.time := by
          simp [collectLooseLog, h, h5]
        rw [heq]
        exact Or.inr (collectLooseLogHit_sweep s e.entityId e.time)
  · rw [if_neg hl]
    rcases h : s.logs.find? (fun l => l.id == e.entityId) with _ | log
    · exact Or.inl (by simp [collectLog, h])
    · by_cases h5 : e.time - log.createdAt < 500
      · exact Or.inl (by simp [collectLog, h, h5])
      · have heq : collectLog s e.entityId e.time = collectLogHit s e.entityId e.time := by
          simp [collectLog, h, h5]
        rw [heq]
        exact Or.inr (collectLogHit_sweep s e.entityId e.time)

/-- C3: `collectLog` and `collectLooseLog` called with a missing id, or
with an entity whose `now - createdAt` is below the 500ms
invulnerability window, return the state unchanged — in particular
`woodCount`, `score`, `totalLogsCollected`, the combo record and the
entity lists are identical before and after. -/
theorem collect_invulnerability_noop (s : GameState) (id : String) (now : Int) :
    (s.looseLogs.find? (fun l => l.id == id) = none → collectLooseLog s id now = s) ∧
    (∀ log, s.looseLogs.find? (fun l => l.id == id) = some log →
      now - log.createdAt < 500 → collectLooseLog s id now = s) ∧
    (s.logs.find? (fun l => l.id == id) = none → collectLog s id now = s) ∧
    (∀ log, s.logs.find? (fun l => l.id == id) = some log →
      now - log.createdAt < 500 → collectLog s id now = s) := by
  refine ⟨fun h => ?_, fun log h h5 => ?_, fun h => ?_, fun log h h5 => ?_⟩
  · simp [collectLooseLog, h]
  · simp [collectLooseLog, h, h5]
  · simp [collectLog, h]
  · simp [collectLog, h, h5]

/-- C3 witness: a dam log created at 800 is rejected at 1000. -/
theorem collect_invulnerability_noop_witness :
    (cexYoung.logs.find? (fun l => l.id == "y0") = some exYoungLog ∧
      (1000 : Int) - exYoungLog.createdAt < 500) ∧
    collectLog cexYoung "y0" 1000 = cexYoung :=
  ⟨⟨by decide, by decide⟩,
   (collect_invulnerability_noop cexYoung "y0" 1000).2.2.2 exYoungLog (by decide) (by decide)⟩

/-- C6: with an active combo whose `startTime` is `t0`, paused since
`t1` (the recorded `lastPauseStartTime`), `dismissNotification` at `t2`
unpauses and shifts `startTime` to `t0 + (t2 - t1)` (and
`levelStartTime` and `lastLogTime` by the same amount); with an
inactive combo the timestamps are untouched. -/
theorem dismiss_pause_compensation (s : GameState) (t0 t1 t2 : Int) :
    ((dismissNotification s t2).isPaused = false) ∧
    (s.combo.active = true → s.combo.startTime = t0 → s.lastPauseStartTime = t1 →
      (dismissNotification s t2).combo.startTime = t0 + (t2 - t1) ∧
      (dismissNotification s t2).combo.levelStartTime = s.combo.levelStartTime + (t2 - t1) ∧
      (dismissNotification s t2).combo.lastLogTime = s.combo.lastLogTime + (t2 - t1)) ∧
    (s.combo.active = false → (dismissNotification s t2).combo = s.combo) := by
  refine ⟨rfl, fun ha h0 h1 => ?_, fun ha => ?_⟩
  · subst h0 h1
    refine ⟨?_, ?_, ?_⟩ <;> simp [dismissNotification, ha]
  · simp [dismissNotification, ha]
    rw [← ha]

/-- C6 witness: combo started at 100, paused at 400, dismissed at 1000:
the post-resume `startTime` is 700. -/
theorem dismiss_pause_compensation_witness :
    (exPausedCombo.combo.active = true ∧ exPausedCombo.combo.startTime = 100 ∧
      exPausedCombo.lastPauseStartTime = 400) ∧
    (dismissNotification exPausedCombo 1000).combo.startTime = 100 + (1000 - 400) :=
  ⟨⟨by decide, by decide, by decide⟩,
   ((dismiss_pause_compensation exPausedCombo 100 400 1000).2.1
      (by decide) (by decide) (by decide)).1⟩

/-- C7: the three resume paths (`dismissNotification`, `closeBuildMenu`,
`selectBlueprint`) leave `logPowerupEndTime` and `treePowerupEndTime`
unchanged while (with an active combo) shifting the combo timestamps by
the pause duration: powerup deadlines are never pause-compensated. -/
theorem resume_paths_powerup_deadlines (s : GameState) (now : Int) (id : String) :
    ((dismissNotification s now).logPowerupEndTime = s.logPowerupEndTime ∧
     (dismissNotification s now).treePowerupEndTime = s.treePowerupEndTime) ∧
    ((closeBuildMenu s now).logPowerupEndTime = s.logPowerupEndTime ∧
     (closeBuildMenu s now).treePowerupEndTime = s.treePowerupEndTime) ∧
    ((selectBlueprint s id now).logPowerupEndTime = s.logPowerupEndTime ∧
     (selectBlueprint s id now).treePowerupEndTime = s.treePowerupEndTime) ∧
    (s.combo.active = true →
      (dismissNotification s now).combo.startTime = s.combo.startTime + (now - s.lastPauseStartTime) ∧
      (closeBuildMenu s now).combo.startTime = s.combo.startTime + (now - s.lastPauseStartTime) ∧
      (selectBlueprint s id now).combo.startTime = s.combo.startTime + (now - s.lastPauseStartTime)) := by
  refine ⟨⟨rfl, rfl⟩, ⟨rfl, rfl⟩, ⟨rfl, rfl⟩, fun ha => ?_⟩
  refine ⟨?_, ?_, ?_⟩ <;> simp [dismissNotification, closeBuildMenu, selectBlueprint, ha]

/-- C7 witness: the combo-shift branch at a concrete paused state. -/
theorem resume_paths_powerup_deadlines_witness :
    exPausedCombo.combo.active = true ∧
    (closeBuildMenu exPausedCombo 1000).combo.startTime =
      exPausedCombo.combo.startTime + (1000 - exPausedCombo.lastPauseStartTime) :=
  ⟨by decide,
   ((resume_paths_powerup_deadlines exPausedCombo 1000 "bp-0").2.2.2 (by decide)).2.1⟩

/-- C9: with a selected blueprint whose cost exceeds the wood on hand,
`placeStructure` is a no-op (state unchanged); with sufficient wood it
deducts exactly the cost and appends one structure whose health and
maxHealth are `cost * 10`. -/
theorem placeStructure_cost_gate (s : GameState) (pos : Vec3) (now : Int)
    (bid : String) (bp : Blueprint) :
    s.selectedBlueprintId = some bid →
    s.blueprints.find? (fun b => b.id == bid) = some bp →
    ((s.woodCount < bp.cost → placeStructure s pos now = s) ∧
     (bp.cost ≤ s.woodCount →
       (placeStructure s pos now).woodCount = s.woodCount - bp.cost ∧
       (placeStructure s pos now).placedStructures = s.placedStructures ++
         [{ id := "struct-" ++ toString now
          , blueprintId := bp.id
          , position := pos
          , rotation := s.placementRotation
          , health := (bp.cost : ℚ) * 10
          , maxHealth := (bp.cost : ℚ) * 10 }]) ) := by
  intro hsel hfind
  constructor
  · intro hlt
    simp [placeStructure, hsel, hfind, hlt]
  · intro hge
    have hnlt : ¬ s.woodCount < bp.cost := not_lt.mpr hge
    refine ⟨?_, ?_⟩ <;> simp [placeStructure, hsel, hfind, hnlt]

/-- C9 witness: `woodCount = 5`, selected blueprint `bp-0` with cost 7:
the placement is rejected without any mutation. -/
theorem placeStructure_cost_gate_witness :
    (cexPoorBuilder.selectedBlueprintId = some "bp-0" ∧
      cexPoorBuilder.woodCount < 7) ∧
    placeStructure cexPoorBuilder (0, 0, 0) 5000 = cexPoorBuilder :=
  ⟨⟨by decide, by decide⟩,
   ((placeStructure_cost_gate cexPoorBuilder (0, 0, 0) 5000 "bp-0"
      { id := "bp-0", name := "Small Pile", cost := 7, unlocked := false, unlockScore := 0 }
      (by decide) (by decide)).1 (by decide))⟩

/-- C10: `heal` clamps at `maxHealth` (its result is exactly
`min maxHealth (health + amount)`, so it alone never overheals), while
`collectFood` may overheal but caps the result at `maxHealth * 2`. -/
theorem heal_and_overheal_caps (s : GameState) (amount : ℚ) (id : String) (f : FoodData) :
    (heal s amount).health = min s.maxHealth (s.health + amount) ∧
    (heal s amount).health ≤ s.maxHealth ∧
    (s.food.find? (fun g => g.id == id) = some f →
      (collectFood s id).health =
        min (s.maxHealth * 2) (s.health + (if f.type = FoodType.apple then 20 else 10)) ∧
      (collectFood s id).health ≤ s.maxHealth * 2) := by
  refine ⟨rfl, min_le_left _ _, fun h => ?_⟩
  have hc : (collectFood s id).health =
      min (s.maxHealth * 2) (s.health + (if f.type = FoodType.apple then 20 else 10)) := by
    simp [collectFood, h]
  exact ⟨hc, hc ▸ min_le_left _ _⟩

/-- C10 witness: an apple at 95 health with maxHealth 100 heals to 115,
within the 200 overheal cap. -/
theorem heal_and_overheal_caps_witness :
    cexFed.food.find? (fun g => g.id == "f0") =
      some { id := "f0", position := (0, 0, 0), rotation := (0, 0, 0), createdAt := 0
           , type := FoodType.apple } ∧
    (collectFood cexFed "f0").health ≤ cexFed.maxHealth * 2 :=
  ⟨by decide,
   ((heal_and_overheal_caps cexFed 0 "f0"
      { id := "f0", position := (0, 0, 0), rotation := (0, 0, 0), createdAt := 0
      , type := FoodType.apple }).2.2 (by decide)).2⟩

/-- C1 counterexample: the actions are not phase-gated.  `endGame`
leaves all entity lists intact, and `collectLooseLog` invoked in the
resulting GAMEOVER state on a surviving collectible loose log mutates
the state (`woodCount` changes), contradicting the claimed no-op. -/
theorem phase_gate_counterexample :
    cexGameOver.phase = GamePhase.GAMEOVER ∧
    (collectLooseLog cexGameOver "l0" 1000).woodCount ≠ cexGameOver.woodCount := by
  decide

/-- C1 amended: the claimed phase gate does not exist (the
counterexample shows a mutation in GAMEOVER); what does hold is the
one-directional guarantee that in any state with phase ≠ PLAYING each
of the five actions returns the state unchanged whenever its own guard
rejects: missing entity, entity still inside its 500ms invulnerability
window, felled tree, no selected blueprint, unknown selected blueprint
id, insufficient wood, not destroying, or no destroy target. -/
theorem nonplaying_actions_guard_noop (s : GameState) (id : String) (now : Int)
    (amount : ℚ) (pos : Vec3) (delta : ℚ) (od : DamageOracle) (ox : DestroyOracle) :
    s.phase ≠ GamePhase.PLAYING →
    ((s.looseLogs.find? (fun l => l.id == id) = none → collectLooseLog s id now = s) ∧
     (∀ log, s.looseLogs.find? (fun l => l.id == id) = some log →
        now - log.createdAt < 500 → collectLooseLog s id now = s) ∧
     (s.logs.find? (fun l => l.id == id) = none → collectLog s id now = s) ∧
     (∀ log, s.logs.find? (fun l => l.id == id) = some log →
        now - log.createdAt < 500 → collectLog s id now = s) ∧
     (s.trees.find? (fun t => t.id == id) = none → damageTree s id amount now od = s) ∧
     (∀ t, s.trees.find? (fun t0 => t0.id == id) = some t → t.isFelled = true →
        damageTree s id amount now od = s) ∧
     (s.selectedBlueprintId = none → placeStructure s pos now = s) ∧
     (∀ bid, s.selectedBlueprintId = some bid →
        s.blueprints.find? (fun b => b.id == bid) = none → placeStructure s pos now = s) ∧
     (∀ bid bp, s.selectedBlueprintId = some bid →
        s.blueprints.find? (fun b => b.id == bid) = some bp →
        s.woodCount < bp.cost → placeStructure s pos now = s) ∧
     (s.isDestroying = false → tickDestruction s delta now ox = s) ∧
     (s.destroyTargetId = none → tickDestruction s delta now ox = s)) := by
  intro _
  refine ⟨fun h => ?_, fun log h h5 => ?_, fun h => ?_, fun log h h5 => ?_, fun h => ?_,
    fun t ht hf => ?_, fun h => ?_, fun bid hsel hbp => ?_, fun bid bp hsel hbp hlt => ?_,
    fun h => ?_, fun h => ?_⟩
  · simp [collectLooseLog, h]
  · simp [collectLooseLog, h, h5]
  · simp [collectLog, h]
  · simp [collectLog, h, h5]
  · simp [damageTree, h]
  · simp [damageTree, ht, hf]
  · simp [placeStructure, h]
  · simp [placeStructure, hsel, hbp]
  · simp [placeStructure, hsel, hbp, hlt]
  · simp [tickDestruction, h]
  · by_cases hd : s.isDestroying = false
    · simp [tickDestruction, hd]
    · simp [tickDestruction, hd, h]

/-- C1 amended witness: in the initial START state the destruction tick
is a guarded no-op. -/
theorem nonplaying_actions_guard_noop_witness :
    (cexStart.phase ≠ GamePhase.PLAYING ∧ cexStart.isDestroying = false) ∧
    tickDestruction cexStart 1 5 oracleX = cexStart :=
  ⟨⟨by decide, by decide⟩,
   ((nonplaying_actions_guard_noop cexStart "x" 5 1 (0, 0, 0) 1 oracleD oracleX)
      (by decide)).2.2.2.2.2.2.2.2.2.1 (by decide)⟩

/-- C4: every successful collection grants `1 * multiplier` wood, where
the multiplier is the one the event leaves in the combo record (the
level-up, if any, applies before the wood is granted); in particular
two collections within 40s of the combo start raise the multiplier to 2
and add 3 wood in total (1 at multiplier 1, then 2 at the moment of
leveling). -/
theorem wood_gain_equals_multiplier (s : GameState) (id : String) (now : Int)
    (log : LooseLogData) (dlog : LogData) :
    (s.looseLogs.find? (fun l => l.id == id) = some log → ¬ now - log.createdAt < 500 →
      (collectLooseLog s id now).woodCount =
        s.woodCount + (collectLooseLog s id now).combo.multiplier) ∧
    (s.logs.find? (fun l => l.id == id) = some dlog → ¬ now - dlog.createdAt < 500 →
      (collectLog s id now).woodCount =
        s.woodCount + (collectLog s id now).combo.multiplier) ∧
    ((collectLooseLog (collectLooseLog scenTwoLogs "a" 1000) "b" 2000).woodCount =
        scenTwoLogs.woodCount + 3 ∧
     (collectLooseLog (collectLooseLog scenTwoLogs "a" 1000) "b" 2000).combo.multiplier = 2) := by
  refine ⟨fun h h5 => ?_, fun h h5 => ?_, by decide⟩
  · simp [collectLooseLog, collectLooseLogHit, h, h5]
  · simp [collectLog, collectLogHit, h, h5]

/-- C4 witness: the first collection of the two-log scenario grants
exactly the post-event multiplier in wood. -/
theorem wood_gain_equals_multiplier_witness :
    (scenTwoLogs.looseLogs.find? (fun l => l.id == "a") = some (exLoose "a") ∧
      ¬ (1000 : Int) - (exLoose "a").createdAt < 500) ∧
    (collectLooseLog scenTwoLogs "a" 1000).woodCount =
      scenTwoLogs.woodCount + (collectLooseLog scenTwoLogs "a" 1000).combo.multiplier :=
  ⟨⟨by decide, by decide⟩,
   (wood_gain_equals_multiplier scenTwoLogs "a" 1000 (exLoose "a") exYoungLog).1
     (by decide) (by decide)⟩

/-- C5: across any sequence of collection events the combo multiplier is
non-decreasing: each event keeps it or raises it by exactly one (the
too-slow reset touches only the progress counters), given the store
invariant that an inactive combo sits at multiplier 1. -/
theorem combo_multiplier_monotone :
    (∀ (s : GameState) (e : CollectEvent),
      (s.combo.active = false → s.combo.multiplier = 1) →
      ((applyCollect s e).combo.multiplier = s.combo.multiplier ∨
       (applyCollect s e).combo.multiplier = s.combo.multiplier + 1)) ∧
    (∀ (s : GameState) (es : List CollectEvent),
      (s.combo.active = false → s.combo.multiplier = 1) →
      s.combo.multiplier ≤ (collectSeq s es).combo.multiplier) := by
  refine ⟨fun s e hinv => (applyCollect_step s e hinv).1, fun s es => ?_⟩
  induction es generalizing s with
  | nil => intro _; exact le_refl _
  | cons e rest ih =>
    intro hinv
    obtain ⟨hdisj, hpres⟩ := applyCollect_step s e hinv
    have h1 : s.combo.multiplier ≤ (applyCollect s e).combo.multiplier := by
      rcases hdisj with h | h <;> omega
    exact le_trans h1 (ih (applyCollect s e) hpres)

/-- C5 witness: the two-collection scenario never lowers the
multiplier. -/
theorem combo_multiplier_monotone_witness :
    (scenTwoLogs.combo.active = false → scenTwoLogs.combo.multiplier = 1) ∧
    scenTwoLogs.combo.multiplier ≤
      (collectSeq scenTwoLogs [⟨true, "a", 1000⟩, ⟨true, "b", 2000⟩]).combo.multiplier :=
  ⟨by decide,
   combo_multiplier_monotone.2 scenTwoLogs [⟨true, "a", 1000⟩, ⟨true, "b", 2000⟩] (by decide)⟩

/-- C8 counterexample: the wrap subtracts 1 only once, so one unpaused
call with `delta/dayDuration = 2` (cumulative progress exceeding 1)
leaves `timeOfDay` at 1, outside `[0, 1)`, refuting the claim for
unrestricted deltas. -/
theorem updateTime_wrap_counterexample :
    exBaseState.isPaused = false ∧ exBaseState.timeOfDay = 0 ∧
    exBaseState.dayDuration = 300 ∧
    ¬ ((updateTime exBaseState 600 (0, 0, 0) 0 oracleT).timeOfDay < 1) := by
  refine ⟨rfl, rfl, rfl, ?_⟩
  have h : (updateTime exBaseState 600 (0, 0, 0) 0 oracleT).timeOfDay = 1 := by
    norm_num [updateTime, exBaseState]
  rw [h]
  norm_num

/-- One `updateTime` call keeps `timeOfDay` inside `[0, 1)` as long as
its `delta` is between 0 and one full day. -/
theorem updateTime_step_bounds (s : GameState) (delta : ℚ) (p : Vec3) (now : Int)
    (o : TimeOracle) (h0 : 0 ≤ s.timeOfDay) (h1 : s.timeOfDay < 1)
    (hd0 : 0 ≤ delta) (hdD : delta ≤ s.dayDuration) (hD : 0 < s.dayDuration) :
    0 ≤ (updateTime s delta p now o).timeOfDay ∧ (updateTime s delta p now o).timeOfDay < 1 := by
  by_cases hp : s.isPaused = true
  · constructor <;> simp [updateTime, hp, h0, h1]
  · have hprog0 : 0 ≤ delta / s.dayDuration := div_nonneg hd0 (le_of_lt hD)
    have hprog1 : delta / s.dayDuration ≤ 1 := (div_le_one hD).mpr hdD
    have htd : (updateTime s delta p now o).timeOfDay =
        (if 1 ≤ s.timeOfDay + delta / s.dayDuration
         then s.timeOfDay + delta / s.dayDuration - 1
         else s.timeOfDay + delta / s.dayDuration) := by
      simp [updateTime, hp]
    rw [htd]
    by_cases hw : 1 ≤ s.timeOfDay + delta / s.dayDuration
    · rw [if_pos hw]
      constructor <;> linarith
    · rw [if_neg hw]
      constructor <;> linarith

/-- `updateTime` never changes `dayDuration` or `isPaused`. -/
theorem updateTime_fixed_fields (s : GameState) (delta : ℚ) (p : Vec3) (now : Int)
    (o : TimeOracle) :
    (updateTime s delta p now o).dayDuration = s.dayDuration ∧
    (updateTime s delta p now o).isPaused = s.isPaused := by
  by_cases hp : s.isPaused = true <;> constructor <;> simp [updateTime, hp]

/-- C8 amended: for every state with `timeOfDay` in `[0, 1)`, a positive
day length, and every sequence of `updateTime` calls whose individual
deltas satisfy `0 ≤ delta ≤ dayDuration` (so per-call progress is at
most one day, as with per-frame ticks), `timeOfDay` stays in `[0, 1)`
after every call, however large the cumulative progress grows. -/
theorem timeOfDay_wraps_for_bounded_deltas (s : GameState) (cs : List TimeCall) :
    0 ≤ s.timeOfDay → s.timeOfDay < 1 → 0 < s.dayDuration →
    (∀ c ∈ cs, 0 ≤ c.delta ∧ c.delta ≤ s.dayDuration) →
    0 ≤ (updateTimeSeq s cs).timeOfDay ∧ (updateTimeSeq s cs).timeOfDay < 1 := by
  induction cs generalizing s with
  | nil => intro h0 h1 _ _; exact ⟨h0, h1⟩
  | cons c rest ih =>
    intro h0 h1 hD hc
    obtain ⟨hcd0, hcdD⟩ := hc c (List.mem_cons_self c rest)
    have hstep := updateTime_step_bounds s c.delta c.playerPos c.time c.oracle h0 h1 hcd0 hcdD hD
    obtain ⟨hdd, -⟩ := updateTime_fixed_fields s c.delta c.playerPos c.time c.oracle
    exact ih (updateTime s c.delta c.playerPos c.time c.oracle) hstep.1 hstep.2
      (by rw [hdd]; exact hD)
      (fun d hd => by rw [hdd]; exact hc d (List.mem_cons_of_mem c hd))

/-- C8 amended witness: two 200s ticks on a 300s day wrap correctly. -/
theorem timeOfDay_wraps_for_bounded_deltas_witness :
    ((0 : ℚ) ≤ exBaseState.timeOfDay ∧ exBaseState.timeOfDay < 1 ∧
      (0 : ℚ) < exBaseState.dayDuration) ∧
    (0 ≤ (updateTimeSeq exBaseState
        [⟨200, (0, 0, 0), 0, oracleT⟩, ⟨200, (0, 0, 0), 1, oracleT⟩]).timeOfDay ∧
      (updateTimeSeq exBaseState
        [⟨200, (0, 0, 0), 0, oracleT⟩, ⟨200, (0, 0, 0), 1, oracleT⟩]).timeOfDay < 1) :=
  ⟨⟨by decide, by decide, by decide⟩,
   timeOfDay_wraps_for_bounded_deltas exBaseState
     [⟨200, (0, 0, 0), 0, oracleT⟩, ⟨200, (0, 0, 0), 1, oracleT⟩]
     (by decide) (by decide) (by decide) (by decide)⟩

/-- C2 counterexample (negation of the claim): the threshold pass is
index-ascending over a strictly ascending table and each check uses the
running score including earlier +100 bonuses, so the claimed scenario
is impossible: in no state does a collection event unlock blueprint `i`
and push the final score to threshold `i+1` while leaving blueprint
`i+1` locked. -/
theorem unlock_cascade_never_missed :
    ¬ ∃ (s : GameState) (e : CollectEvent) (i t : Nat) (bpB bpA bpN : Blueprint),
        1 ≤ i ∧ i + 1 ≤ 9 ∧
        s.blueprints[i]? = some bpB ∧ bpB.unlocked = false ∧
        (applyCollect s e).blueprints[i]? = some bpA ∧ bpA.unlocked = true ∧
        thresholds[i + 1]? = some t ∧ t ≤ (applyCollect s e).score ∧
        (applyCollect s e).blueprints[i + 1]? = some bpN ∧ bpN.unlocked = false := by
  rintro ⟨s, e, i, t, bpB, bpA, bpN, h1, h2, hB, hBl, hA, hAu, ht, hts, hN, hNl⟩
  rcases applyCollect_sweep_cases s e with heq | ⟨hbps, hsc⟩
  · rw [heq] at hA
    have hBA : bpB = bpA := Option.some.inj (hB.symm.trans hA)
    rw [← hBA] at hAu
    rw [hBl] at hAu
    cases hAu
  · rw [hbps] at hN
    rw [hsc] at hts
    have hlt := unlockSweep_locked_below (collectAcc0 s e.time) (i + 1) t bpN
      (by omega) h2 ht hN hNl
    omega

/-- C2 amended: the single forward pass already reaches a fixed point:
after any state-changing collection event, every blueprint index 1..9
left locked has a final score strictly below its threshold, so a
same-frame forward cascade (index `i+1` becoming eligible through the
+100 bonus of index `i`) is always taken, never missed. -/
theorem unlock_sweep_fixed_point (s : GameState) (e : CollectEvent) (i t : Nat)
    (bp : Blueprint) :
    1 ≤ i → i ≤ 9 → thresholds[i]? = some t →
    applyCollect s e ≠ s →
    (applyCollect s e).blueprints[i]? = some bp → bp.unlocked = false →
    (applyCollect s e).score < t := by
  intro h1 h9 ht hne hbp hlock
  rcases applyCollect_sweep_cases s e with heq | ⟨hbps, hsc⟩
  · exact absurd heq hne
  · rw [hbps] at hbp
    rw [hsc]
    exact unlockSweep_locked_below (collectAcc0 s e.time) i t bp h1 h9 ht hbp hlock

/-- C2 amended witness: a concrete collection at score 0 leaves
blueprint 2 locked with the final score below its threshold 300. -/
theorem unlock_sweep_fixed_point_witness :
    (thresholds[2]? = some 300 ∧
     applyCollect scenTwoLogs ⟨true, "a", 1000⟩ ≠ scenTwoLogs ∧
     (applyCollect scenTwoLogs ⟨true, "a", 1000⟩).blueprints[2]? =
       some { id := "bp-2", name := "Corner Wall", cost := 30
            , unlocked := false, unlockScore := 300 }) ∧
    (applyCollect scenTwoLogs ⟨true, "a", 1000⟩).score < 300 :=
  ⟨⟨by decide, by decide, by decide⟩,
   unlock_sweep_fixed_point scenTwoLogs ⟨true, "a", 1000⟩ 2 300
     { id := "bp-2", name := "Corner Wall", cost := 30, unlocked := false, unlockScore := 300 }
     (by decide) (by decide) (by decide) (by decide) (by decide) (by decide)⟩

end Chucky
